import Mathlib

/-!
Verification development for the swisseph-fastapi service (src/main.py).

The service is a thin façade over the external Swiss Ephemeris library
(`swisseph`, imported as `swe`).  We shallow-embed the handler logic:

* Python floats are modelled as exact rationals (`ℚ`);
* the external library calls (`swe.julday`, `swe.calc_ut`, `swe.houses`,
  `swe.get_ayanamsa`, `swe.sidtime`) are opaque collaborators, passed to each
  handler model as function parameters; fallible calls return `Except String`
  carrying the exception message;
* a raised exception that a handler catches and converts with
  `HTTPException(status_code=500, detail=...)` becomes `Resp.httpError`;
  CPython's message text for built-in exceptions is abstracted to the
  exception's type name (e.g. `"ValueError"`);
* pydantic response-model construction is modelled by the list of declared
  fields together with the keyword arguments supplied at the call site:
  missing required fields raise a `ValidationError`
  (under pydantic v1 `Optional[...]` fields default to `None`, so only
  non-`Optional` fields are required; under v2 the `Optional` ones would be
  required as well — the observable outcome, a `ValidationError`, is the
  same for every construction site in this file);
* Python attribute access `request.x` on a pydantic model instance is
  modelled by a per-model accessor over the declared field names; a name
  that is not a declared field raises `AttributeError`.
-/

namespace Swisseph

/-! ### External library constants

Fixed planet codes of the external Swiss Ephemeris library
(`swe.SUN` … `swe.PLUTO`, documented values 0 … 9). -/

def SE_SUN : Nat := 0

def SE_MOON : Nat := 1

def SE_MERCURY : Nat := 2

def SE_VENUS : Nat := 3

def SE_MARS : Nat := 4

def SE_JUPITER : Nat := 5

def SE_SATURN : Nat := 6

def SE_URANUS : Nat := 7

def SE_NEPTUNE : Nat := 8

def SE_PLUTO : Nat := 9

/-! ### Input normalisation (date/time parsing, lines 84-88 etc.) -/

/-- Value of a non-empty all-digit token, `none` otherwise. -/
def digitsVal (cs : List Char) : Option Nat :=
  match cs with
  | [] => Option.none
  | _ =>
    if cs.all (fun c => c.isDigit) then
      some (cs.foldl (fun a c => 10 * a + (c.toNat - 48)) 0)
    else
      Option.none

/-- Python `int(token)`: an optional sign followed by decimal digits
(whitespace/underscore forms are never produced by the splits below). -/
def pyIntTok (cs : List Char) : Option Int :=
  match cs with
  | [] => Option.none
  | c :: rest =>
    if c = '-' then (digitsVal rest).map (fun n => -(n : Int))
    else if c = '+' then (digitsVal rest).map (fun n => (n : Int))
    else (digitsVal cs).map (fun n => (n : Int))

/-- Python `str.split(sep)` for a one-character separator. -/
def splitOnChar (sep : Char) : List Char → List (List Char)
  | [] => [[]]
  | c :: rest =>
    let r := splitOnChar sep rest
    if c = sep then [] :: r
    else
      match r with
      | [] => [[c]]
      | g :: gs => (c :: g) :: gs

/-- `map(int, tokens)`, forced all at once: any bad token fails the whole map. -/
def mapPyInt : List (List Char) → Option (List Int)
  | [] => some []
  | t :: ts =>
    match pyIntTok t, mapPyInt ts with
    | some v, some vs => some (v :: vs)
    | _, _ => Option.none

/-- Line 84 (and its copies): `year, month, day = map(int, date.split('-'))`.
A wrong segment count or a non-numeric token raises `ValueError` (`none`). -/
def parseDate (date : String) : Option (Int × Int × Int) :=
  match mapPyInt (splitOnChar '-' date.data) with
  | some [y, m, d] => some (y, m, d)
  | _ => Option.none

/-- Line 85 (and its copies): `hour, minute, second = map(int, time.split(':'))`. -/
def parseTime (time : String) : Option (Int × Int × Int) :=
  match mapPyInt (splitOnChar ':' time.data) with
  | some [h, m, s] => some (h, m, s)
  | _ => Option.none

/-- Line 88: `decimal_hour = hour + minute/60.0 + second/3600.0`.
No range check is applied to any of the three components. -/
def decimalHour (hour minute second : Int) : ℚ :=
  (hour : ℚ) + (minute : ℚ) / 60 + (second : ℚ) / 3600

/-- The decimal hour obtained from a raw time string, when it parses. -/
def timeToDecimalHour (time : String) : Option ℚ :=
  (parseTime time).map (fun t => decimalHour t.1 t.2.1 t.2.2)

/-- Default of the `time` query parameter on every GET handler (line 81 etc.). -/
def defaultTime : String := "00:00:00"

/-! ### HTTP handler outcomes -/

/-- Outcome of a handler that wraps its body in
`try: ... except Exception as e: raise HTTPException(status_code=500, ...)`. -/
inductive Resp (α : Type) where
  | ok (value : α)
  | httpError (status : Nat) (detail : String)
deriving DecidableEq

/-- A client-error (4xx) HTTP status. -/
def isClientError (status : Nat) : Prop := 400 ≤ status ∧ status < 500

instance (status : Nat) : Decidable (isClientError status) := by
  unfold isClientError
  infer_instance

/-! ### The `/planets` handler (lines 80-126) -/

/-- The `planet_dict` of `get_planets` (lines 94-105): capitalised display
names mapped to the external library's planet codes, in insertion order. -/
def planet_dict_planets : List (String × Nat) :=
  [("Sun", SE_SUN), ("Moon", SE_MOON), ("Mercury", SE_MERCURY),
   ("Venus", SE_VENUS), ("Mars", SE_MARS), ("Jupiter", SE_JUPITER),
   ("Saturn", SE_SATURN), ("Uranus", SE_URANUS), ("Neptune", SE_NEPTUNE),
   ("Pluto", SE_PLUTO)]

/-- One value of the `/planets` result map: either the six named position
fields (lines 113-120) or the per-body error entry (line 122). -/
inductive PlanetEntry where
  | fields (longitude latitude distance longitude_speed latitude_speed
      distance_speed : ℚ)
  | errorEntry (msg : String)
deriving DecidableEq

/-- Lines 112-122, the body of one loop iteration: `swe.calc_ut` either
returns the position tuple `ret` (indexed `ret[0] … ret[5]`; a tuple shorter
than six would raise `IndexError`, also caught by the per-body `except`) or
raises, in which case the entry is `{"error": str(e)}`. -/
def entryOf : Except String (List ℚ) → PlanetEntry
  | .error e => .errorEntry e
  | .ok (r0 :: r1 :: r2 :: r3 :: r4 :: r5 :: _) => .fields r0 r1 r2 r3 r4 r5
  | .ok _ => .errorEntry "IndexError"

/-- Lines 110-122: the `for planet_name, planet_id in planet_dict.items()`
loop.  Returns the result map (as an insertion-ordered association list)
together with the trace of `swe.calc_ut` invocations made, in order: the
loop body contains exactly one `swe.calc_ut` call and no retry. -/
def planetLoop (calc_ut : ℚ → Nat → Except String (List ℚ)) (jd_ut : ℚ) :
    List (String × Nat) → List (String × PlanetEntry) × List (ℚ × Nat)
  | [] => ([], [])
  | (planet_name, planet_id) :: rest =>
    let entry := entryOf (calc_ut jd_ut planet_id)
    let r := planetLoop calc_ut jd_ut rest
    ((planet_name, entry) :: r.1, (jd_ut, planet_id) :: r.2)

/-- Lines 80-126: `get_planets`.  `julday` and `calc_ut` are the external
collaborator's `swe.julday` and `swe.calc_ut`. -/
def get_planets (julday : Int → Int → Int → ℚ → ℚ)
    (calc_ut : ℚ → Nat → Except String (List ℚ))
    (date : String) (time : String) : Resp (List (String × PlanetEntry)) :=
  match parseDate date, parseTime time with
  | some (year, month, day), some (hour, minute, second) =>
    let jd_ut := julday year month day (decimalHour hour minute second)
    .ok (planetLoop calc_ut jd_ut planet_dict_planets).1
  | _, _ => .httpError 500 "Error calculating planetary positions: ValueError"

/-! ### The `/houses` handler (lines 129-153) -/

/-- Response dict of `get_houses` (lines 145-151). -/
structure HousesResponse where
  cusps : List ℚ
  ascendant : ℚ
  midheaven : ℚ
  armc : ℚ
  vertex : ℚ
deriving DecidableEq

/-- Lines 129-153: `get_houses`.  `housesEx` is the collaborator's
`swe.houses`, returning the `(cusps, ascmc)` pair or raising.  Accessing
`ascmc[3]` on a short tuple raises `IndexError`, caught by the same
`except Exception` and converted to the 500 response. -/
def get_houses (julday : Int → Int → Int → ℚ → ℚ)
    (housesEx : ℚ → ℚ → ℚ → String → Except String (List ℚ × List ℚ))
    (date : String) (time : String) (lat lon : ℚ) (system : String) :
    Resp HousesResponse :=
  match parseDate date, parseTime time with
  | some (year, month, day), some (hour, minute, second) =>
    let jd_ut := julday year month day (decimalHour hour minute second)
    match housesEx jd_ut lat lon system with
    | .ok (cusps, ascmc) =>
      match ascmc with
      | asc :: mh :: ar :: vtx :: _ =>
        .ok ⟨cusps, asc, mh, ar, vtx⟩
      | _ => .httpError 500 "Error calculating houses: IndexError"
    | .error e => .httpError 500 ("Error calculating houses: " ++ e)
  | _, _ => .httpError 500 "Error calculating houses: ValueError"

/-! ### The `/ayanamsa` handler (lines 156-174) -/

/-- Lines 156-174: `get_ayanamsa`.  `ayanamsaOf` is `swe.get_ayanamsa`. -/
def get_ayanamsa (julday : Int → Int → Int → ℚ → ℚ)
    (ayanamsaOf : ℚ → Except String ℚ)
    (date : String) (time : String) : Resp ℚ :=
  match parseDate date, parseTime time with
  | some (year, month, day), some (hour, minute, second) =>
    let jd_ut := julday year month day (decimalHour hour minute second)
    match ayanamsaOf jd_ut with
    | .ok a => .ok a
    | .error e => .httpError 500 ("Error calculating ayanamsa: " ++ e)
  | _, _ => .httpError 500 "Error calculating ayanamsa: ValueError"

/-! ### The `/julian_day` handler (lines 177-192) -/

/-- Lines 177-192: `get_julian_day`.  `swe.julday` is a total arithmetic
conversion, so the only failure source inside the `try` is the parsing. -/
def get_julian_day (julday : Int → Int → Int → ℚ → ℚ)
    (date : String) (time : String) : Resp ℚ :=
  match parseDate date, parseTime time with
  | some (year, month, day), some (hour, minute, second) =>
    .ok (julday year month day (decimalHour hour minute second))
  | _, _ => .httpError 500 "Error calculating Julian Day: ValueError"

/-! ### Python exception / pydantic model machinery for the POST handlers

The POST handlers (lines 195-240) have no `try`/`except`: any exception
raised in the body propagates out of the handler (FastAPI then answers 500).
-/

/-- An exception escaping a POST handler body. -/
inductive PyErr where
  | attributeError (attr : String)
  | validationError (missingFields : List String)
  | exceptionRaised (kind : String)
deriving DecidableEq

/-- A Python value as far as these handlers look at one. -/
inductive PyVal where
  | vStr (s : String)
  | vNum (q : ℚ)
  | vOptNum (q : Option ℚ)
  | vBool (b : Bool)
deriving DecidableEq

/-- Outcome of a POST handler: a successfully constructed response model,
a plain dict return (`return {"error": ...}`, line 211), or an exception. -/
inductive PyResult (α : Type) where
  | ok (value : α)
  | errorDict (msg : String)
  | raised (e : PyErr)
deriving DecidableEq

/-- One declared field of a pydantic response model, with whether the
constructor requires it (pydantic v1: `Optional[...]` fields get an implicit
`None` default and are not required; every other field is required). -/
structure FieldSpec where
  name : String
  required : Bool
deriving DecidableEq

/-- Required fields of a pydantic model that the given keyword arguments do
not supply (undeclared keywords are ignored, never an error). -/
def missingRequired (fields : List FieldSpec) (given : List String) :
    List String :=
  (fields.filter (fun f => f.required && !(given.contains f.name))).map
    (fun f => f.name)

/-- Constructing a pydantic model raises `ValidationError` when a required
field is missing from the supplied keyword arguments. -/
def pydanticInit (fields : List FieldSpec) (given : List String) :
    Except PyErr Unit :=
  match missingRequired fields given with
  | [] => .ok ()
  | ms => .error (.validationError ms)

/-- Declared fields of `RetrogradeMotionResponse` (lines 27-31): planet,
is_retrograde, speed, date — all required. -/
def retrogradeMotionResponseFields : List FieldSpec :=
  [⟨"planet", true⟩, ⟨"is_retrograde", true⟩, ⟨"speed", true⟩,
   ⟨"date", true⟩]

/-- Declared fields of `SolarEclipseResponse` (lines 37-43): eclipse_type,
date and time_utc required; magnitude, central_duration and visible_from
`Optional`. -/
def solarEclipseResponseFields : List FieldSpec :=
  [⟨"eclipse_type", true⟩, ⟨"date", true⟩, ⟨"time_utc", true⟩,
   ⟨"magnitude", false⟩, ⟨"central_duration", false⟩,
   ⟨"visible_from", false⟩]

/-- Declared fields of `LunarEclipseResponse` (lines 51-57). -/
def lunarEclipseResponseFields : List FieldSpec :=
  [⟨"eclipse_type", true⟩, ⟨"date", true⟩, ⟨"time_utc", true⟩,
   ⟨"magnitude", false⟩, ⟨"duration", false⟩, ⟨"visible_from", false⟩]

/-- Declared fields of `SiderealTimeResponse` (lines 65-71): all six
required (`longitude` is `float`, not `Optional`, in the response model). -/
def siderealTimeResponseFields : List FieldSpec :=
  [⟨"date", true⟩, ⟨"time_utc", true⟩, ⟨"longitude", true⟩,
   ⟨"sidereal_time", true⟩, ⟨"sidereal_time_deg", true⟩, ⟨"type", true⟩]

/-! ### Request models (lines 33-35, 45-49, 59-63, 73-77) -/

/-- Lines 33-35: `RetrogradeMotionRequest` declares exactly the fields
`planet` and `date`. -/
structure RetrogradeMotionRequest where
  planet : String
  date : String
deriving DecidableEq

/-- Lines 45-49: `SolarEclipseRequest`. -/
structure SolarEclipseRequest where
  date : String
  latitude : Option ℚ
  longitude : Option ℚ
  search_forward : Option Bool
deriving DecidableEq

/-- Lines 59-63: `LunarEclipseRequest`. -/
structure LunarEclipseRequest where
  date : String
  latitude : Option ℚ
  longitude : Option ℚ
  search_forward : Option Bool
deriving DecidableEq

/-- Lines 73-77: `SiderealTimeRequest` declares exactly the fields `date`,
`time_utc`, `longitude` and `type`. -/
structure SiderealTimeRequest where
  date : String
  time_utc : String
  longitude : Option ℚ
  type : String
deriving DecidableEq

/-- Attribute access on a `RetrogradeMotionRequest` instance: only the two
declared fields resolve; any other name raises `AttributeError`. -/
def retrogradeReqAttr (request : RetrogradeMotionRequest) :
    String → Except PyErr PyVal
  | "planet" => .ok (.vStr request.planet)
  | "date" => .ok (.vStr request.date)
  | attr => .error (.attributeError attr)

/-- Attribute access on a `SiderealTimeRequest` instance. -/
def siderealReqAttr (request : SiderealTimeRequest) :
    String → Except PyErr PyVal
  | "date" => .ok (.vStr request.date)
  | "time_utc" => .ok (.vStr request.time_utc)
  | "longitude" => .ok (.vOptNum request.longitude)
  | "type" => .ok (.vStr request.type)
  | attr => .error (.attributeError attr)

/-- Python `str.lower()` on one character, for the ASCII range (every name
this service compares is ASCII). -/
def pyLowerChar (c : Char) : Char :=
  if 65 ≤ c.toNat ∧ c.toNat ≤ 90 then Char.ofNat (c.toNat + 32) else c

/-- Python `str.lower()` (ASCII range). -/
def pyLower (s : String) : String :=
  String.mk (s.data.map pyLowerChar)

/-- Python `.lower()` on a value: only strings have the method. -/
def pyStrLower : PyVal → Except PyErr String
  | .vStr s => .ok (pyLower s)
  | _ => .error (.attributeError "lower")

/-! ### The `/retrograde_motion` handler (lines 195-215) -/

/-- The `planet_dict` of `get_retrograde_motion` (lines 197-208): lowercase
names mapped to the external library's planet codes. -/
def planet_dict_retro : List (String × Nat) :=
  [("sun", SE_SUN), ("moon", SE_MOON), ("mercury", SE_MERCURY),
   ("venus", SE_VENUS), ("mars", SE_MARS), ("jupiter", SE_JUPITER),
   ("saturn", SE_SATURN), ("uranus", SE_URANUS), ("neptune", SE_NEPTUNE),
   ("pluto", SE_PLUTO)]

/-- Python `dict.get(key)` on a string-keyed dict. -/
def dictGet (d : List (String × Nat)) (key : String) : Option Nat :=
  (d.find? (fun p => p.1 == key)).map (fun p => p.2)

/-- Line 209: `planet_dict.get(request.planet_name.lower())` — the lookup
itself, applied to a name value. -/
def lookupPlanetId (name : String) : Option Nat :=
  dictGet planet_dict_retro (pyLower name)

/-- Python truthiness of an `Optional[int]`: both `None` and `0` are falsy,
so `if not planet_id:` (line 210) fires for a missing name AND for the Sun,
whose code is `0`. -/
def pyTruthy : Option Nat → Bool
  | Option.none => false
  | some n => n != 0

/-- Line 214: `retrograde = ret[0] < 180` — the check reads only the
longitude `ret[0]`; the longitude speed plays no part. -/
def retrogradeFromLongitude (longitude : ℚ) : Bool :=
  decide (longitude < 180)

/-- Lines 195-215: `get_retrograde_motion`.  `calcEx` is the collaborator's
`swe.calc`.  Returned together with the trace of `swe.calc` invocations.
Line 209 reads `request.planet_name`, which is not a declared field of
`RetrogradeMotionRequest`; the rest of the body is modelled faithfully but
is unreachable. -/
def get_retrograde_motion (calcEx : ℚ → Nat → Except String (List ℚ))
    (request : RetrogradeMotionRequest) : PyResult Unit × List (ℚ × Nat) :=
  match retrogradeReqAttr request "planet_name" with
  | .error e => (.raised e, [])
  | .ok v =>
    match pyStrLower v with
    | .error e => (.raised e, [])
    | .ok lowered =>
      let planet_id := dictGet planet_dict_retro lowered
      if pyTruthy planet_id then
        match planet_id with
        | some pid =>
          match retrogradeReqAttr request "jd_ut" with
          | .error e => (.raised e, [])
          | .ok jdv =>
            match jdv with
            | .vNum jd_ut =>
              match calcEx jd_ut pid with
              | .error e => (.raised (.exceptionRaised e), [(jd_ut, pid)])
              | .ok ret =>
                match ret with
                | r0 :: _ =>
                  let retrograde := retrogradeFromLongitude r0
                  match pydanticInit retrogradeMotionResponseFields
                      ["is_retrograde"] with
                  | .error e => (.raised e, [(jd_ut, pid)])
                  | .ok _ =>
                    let _unused := retrograde
                    (.ok (), [(jd_ut, pid)])
                | [] => (.raised (.exceptionRaised "IndexError"), [])
            | _ => (.raised (.exceptionRaised "TypeError"), [])
        | Option.none => (.errorDict "Invalid planet name", [])
      else
        (.errorDict "Invalid planet name", [])

/-! ### The eclipse stub handlers (lines 219-233) -/

/-- Lines 219-224: `get_solar_eclipse`.  The body sets `is_eclipse = False`
and constructs `SolarEclipseResponse(is_eclipse=is_eclipse)`: `is_eclipse`
is not a declared field, and the declared required fields receive no value,
so the construction raises `ValidationError`.  No ephemeris call is made
and the request is never read. -/
def get_solar_eclipse (_request : SolarEclipseRequest) : PyResult Unit :=
  match pydanticInit solarEclipseResponseFields ["is_eclipse"] with
  | .error e => .raised e
  | .ok _ => .ok ()

/-- Lines 228-233: `get_lunar_eclipse`, same shape as the solar stub. -/
def get_lunar_eclipse (_request : LunarEclipseRequest) : PyResult Unit :=
  match pydanticInit lunarEclipseResponseFields ["is_eclipse"] with
  | .error e => .raised e
  | .ok _ => .ok ()

/-! ### The `/sidereal_time` handler (lines 237-240) -/

/-- Lines 237-240: `get_sidereal_time`.  `sidtime` is the collaborator's
`swe.sidtime`.  Line 239 reads `request.jd_ut`, which is not a declared
field of `SiderealTimeRequest`; the rest of the body (the `swe.sidtime`
call and the response construction with only `sidereal_time` supplied) is
modelled faithfully but is unreachable. -/
def get_sidereal_time (sidtime : ℚ → ℚ) (request : SiderealTimeRequest) :
    PyResult Unit :=
  match siderealReqAttr request "jd_ut" with
  | .error e => .raised e
  | .ok v =>
    match v with
    | .vNum jd_ut =>
      let _sidereal_time := sidtime jd_ut
      match pydanticInit siderealTimeResponseFields ["sidereal_time"] with
      | .error e => .raised e
      | .ok _ => .ok ()
    | _ => .raised (.exceptionRaised "TypeError")

/-! ### Sidereal-time formatting (spec-modelled) -/

/-- Modelled from the spec: the degrees-to-"Hh Mm Ss" sidereal-time
formatting of §4.5 — "hours = floor(degrees/15), minutes =
floor((degrees mod 15) × 4), seconds = floor((((degrees mod 15) × 4)
mod 1) × 60)", truncation only.  This conversion belongs to a repository
endpoint variant that is not included under `src/`; the `src/main.py`
`/sidereal_time` handler performs no formatting at all (it raises before
reaching any, see `get_sidereal_time`). -/
def formatSiderealDegrees (degrees : ℚ) : String :=
  let hours : Int := ⌊degrees / 15⌋
  let remDeg : ℚ := degrees - 15 * (⌊degrees / 15⌋ : ℚ)
  let minutesQ : ℚ := remDeg * 4
  let minutes : Int := ⌊minutesQ⌋
  let seconds : Int := ⌊(minutesQ - (⌊minutesQ⌋ : ℚ)) * 60⌋
  toString hours ++ "h " ++ toString minutes ++ "m " ++ toString seconds
    ++ "s"

/-! ## Helper lemmas about the `/planets` loop -/

/-- The loop keeps every dictionary key, in order, whatever `calc_ut` does. -/
theorem planetLoop_keys (calc_ut : ℚ → Nat → Except String (List ℚ))
    (jd_ut : ℚ) (l : List (String × Nat)) :
    ((planetLoop calc_ut jd_ut l).1).map Prod.fst = l.map Prod.fst := by
  induction l with
  | nil => rfl
  | cons p rest ih =>
    obtain ⟨nm, pid⟩ := p
    simp [planetLoop, ih]

/-- The loop performs exactly one `swe.calc_ut` call per dictionary entry,
in order, whatever the outcomes are. -/
theorem planetLoop_trace (calc_ut : ℚ → Nat → Except String (List ℚ))
    (jd_ut : ℚ) (l : List (String × Nat)) :
    (planetLoop calc_ut jd_ut l).2 = l.map (fun p => (jd_ut, p.2)) := by
  induction l with
  | nil => rfl
  | cons p rest ih =>
    obtain ⟨nm, pid⟩ := p
    simp [planetLoop, ih]

/-- Each dictionary entry contributes the result of its own `calc_ut` call
to the result map, independently of every other entry's outcome. -/
theorem planetLoop_mem (calc_ut : ℚ → Nat → Except String (List ℚ))
    (jd_ut : ℚ) (l : List (String × Nat)) (nm : String) (pid : Nat)
    (h : (nm, pid) ∈ l) :
    (nm, entryOf (calc_ut jd_ut pid)) ∈ (planetLoop calc_ut jd_ut l).1 := by
  induction l with
  | nil => cases h
  | cons p rest ih =>
    obtain ⟨nm2, pid2⟩ := p
    simp only [planetLoop]
    rcases List.mem_cons.mp h with h1 | h2
    · rw [Prod.mk.injEq] at h1
      obtain ⟨rfl, rfl⟩ := h1
      exact List.mem_cons_self _ _
    · exact List.mem_cons_of_mem _ (ih h2)

/-! ## Claim theorems -/

/-- Claim C1 (code-bug evidence): the body lookup of `/retrograde_motion`
(line 209) does map every casing of the ten names to its fixed code and
rejects unknown names, but the guard `if not planet_id:` (line 210) treats
the Sun's zero code as a failed lookup, so a request for the Sun is
answered "Invalid planet name". -/
theorem sun_lookup_misreported_as_invalid :
    lookupPlanetId "Sun" = some SE_SUN
    ∧ lookupPlanetId "SUN" = some SE_SUN
    ∧ lookupPlanetId "sun" = some SE_SUN
    ∧ SE_SUN = 0
    ∧ pyTruthy (lookupPlanetId "Sun") = false
    ∧ pyTruthy (lookupPlanetId "Mercury") = true
    ∧ pyTruthy (lookupPlanetId "JUPITER") = true
    ∧ lookupPlanetId "Vulcan" = Option.none := by
  decide

/-- Claim C2 (code-bug evidence): line 214 computes `is_retrograde` as
`ret[0] < 180`, a test of the longitude alone: a body at longitude 100°
is reported retrograde regardless of a positive longitude-speed, and a
body at longitude 200° is reported direct regardless of a negative one —
the longitude-speed is not an input of the check at all. -/
theorem retrograde_check_reads_longitude :
    retrogradeFromLongitude 100 = true
    ∧ retrogradeFromLongitude 200 = false := by
  decide

/-- Claim C3 (code-bug evidence): for every request, each eclipse stub
constructs its response model with only the undeclared keyword
`is_eclipse`, so the construction raises `ValidationError` (the three
required fields are missing) instead of returning the fixed no-eclipse
response; the outcome is identical for every input and no path produces
eclipse data. -/
theorem eclipse_stubs_raise_validation_error :
    (∀ request : SolarEclipseRequest,
      get_solar_eclipse request
        = .raised (.validationError ["eclipse_type", "date", "time_utc"]))
    ∧ (∀ request : LunarEclipseRequest,
      get_lunar_eclipse request
        = .raised (.validationError ["eclipse_type", "date", "time_utc"])) :=
  ⟨fun _ => rfl, fun _ => rfl⟩

/-- Claim C4: the spec-modelled sidereal formatting truncates rather than
rounds: 0° ↦ "0h 0m 0s", 15° ↦ "1h 0m 0s", 180° ↦ "12h 0m 0s", and
359.999999° ↦ "23h 59m 59s" (not rounded up to 24h or 60s). -/
theorem sidereal_formatting_examples :
    formatSiderealDegrees 0 = "0h 0m 0s"
    ∧ formatSiderealDegrees 15 = "1h 0m 0s"
    ∧ formatSiderealDegrees 180 = "12h 0m 0s"
    ∧ formatSiderealDegrees (359999999 / 1000000) = "23h 59m 59s" := by
  refine ⟨?_, ?_, ?_, ?_⟩
  all_goals unfold formatSiderealDegrees
  all_goals norm_num
  all_goals rfl

/-- Claim C5 (counterexample): a malformed date (wrong segment count) on
`/julian_day` is answered with HTTP 500 — a server error, not a
client-facing 4xx naming the offending field. -/
theorem malformed_date_answered_with_500 :
    get_julian_day (fun _ _ _ _ => 0) "2025-05" "00:00:00"
      = .httpError 500 "Error calculating Julian Day: ValueError"
    ∧ ¬ isClientError 500 :=
  ⟨by decide, by decide⟩

/-- Claim C5 (amended): every malformed date or time string (wrong segment
count or non-numeric token, i.e. a failed parse) makes each of the four
date/time-taking handlers raise `HTTPException` with status 500 whose
detail names the failed calculation; no 4xx is produced and no field is
named. -/
theorem malformed_datetime_yields_500 :
    ∀ (julday : Int → Int → Int → ℚ → ℚ)
      (calc_ut : ℚ → Nat → Except String (List ℚ))
      (housesEx : ℚ → ℚ → ℚ → String → Except String (List ℚ × List ℚ))
      (ayanamsaOf : ℚ → Except String ℚ)
      (date time : String) (lat lon : ℚ) (system : String),
      parseDate date = Option.none ∨ parseTime time = Option.none →
      get_julian_day julday date time
          = .httpError 500 "Error calculating Julian Day: ValueError"
        ∧ get_planets julday calc_ut date time
          = .httpError 500 "Error calculating planetary positions: ValueError"
        ∧ get_houses julday housesEx date time lat lon system
          = .httpError 500 "Error calculating houses: ValueError"
        ∧ get_ayanamsa julday ayanamsaOf date time
          = .httpError 500 "Error calculating ayanamsa: ValueError" := by
  intro julday calc_ut housesEx ayanamsaOf date time lat lon system h
  unfold get_julian_day get_planets get_houses get_ayanamsa
  refine ⟨?_, ?_, ?_, ?_⟩ <;> (split <;> simp_all)

/-- Witness for the amended C5 at the concrete malformed date "2025-05". -/
theorem malformed_datetime_yields_500_witness :
    get_julian_day (fun _ _ _ _ => 0) "2025-05" "12:00:00"
        = .httpError 500 "Error calculating Julian Day: ValueError"
      ∧ get_planets (fun _ _ _ _ => 0) (fun _ _ => .ok [1, 2, 3, 4, 5, 6])
          "2025-05" "12:00:00"
        = .httpError 500 "Error calculating planetary positions: ValueError"
      ∧ get_houses (fun _ _ _ _ => 0) (fun _ _ _ _ => .ok ([], []))
          "2025-05" "12:00:00" 0 0 "P"
        = .httpError 500 "Error calculating houses: ValueError"
      ∧ get_ayanamsa (fun _ _ _ _ => 0) (fun _ => .ok 0) "2025-05" "12:00:00"
        = .httpError 500 "Error calculating ayanamsa: ValueError" :=
  malformed_datetime_yields_500 _ _ _ _ "2025-05" "12:00:00" 0 0 "P"
    (Or.inl (by decide))

/-- Claim C6: whenever a time string parses as (h, m, s), the decimal hour
is h + m/60 + s/3600 exactly; the components are not range-checked (the
out-of-range "99:77:-5" parses and is forwarded unchanged to the external
`julday` call), and the default time "00:00:00" gives decimal hour 0. -/
theorem decimal_hour_formula :
    (∀ (time : String) (h m s : Int), parseTime time = some (h, m, s) →
      timeToDecimalHour time
        = some ((h : ℚ) + (m : ℚ) / 60 + (s : ℚ) / 3600))
    ∧ parseTime "99:77:-5" = some (99, 77, -5)
    ∧ (∀ julday : Int → Int → Int → ℚ → ℚ,
      get_julian_day julday "2025-01-01" "99:77:-5"
        = .ok (julday 2025 1 1 (decimalHour 99 77 (-5))))
    ∧ timeToDecimalHour defaultTime = some 0 := by
  refine ⟨?_, by decide, fun julday => rfl, ?_⟩
  · intro time h m s hp
    simp [timeToDecimalHour, hp, decimalHour]
  · have hp : parseTime defaultTime = some (0, 0, 0) := by decide
    simp [timeToDecimalHour, hp, decimalHour]

/-- Witness for C6 at the concrete well-formed time "12:30:15". -/
theorem decimal_hour_formula_witness :
    timeToDecimalHour "12:30:15"
      = some (((12 : Int) : ℚ) + ((30 : Int) : ℚ) / 60
          + ((15 : Int) : ℚ) / 3600) :=
  decimal_hour_formula.1 "12:30:15" 12 30 15 (by decide)

/-- Claim C7: on a successful `/houses` request the response carries the
collaborator's cusp tuple (12 longitudes) unchanged and the four angles
`ascmc[0..3]`; the house-system code reaches the collaborator exactly as
given, with no local validation — when the collaborator rejects it, the
handler merely converts the failure to a 500. -/
theorem houses_passthrough :
    ∀ (julday : Int → Int → Int → ℚ → ℚ)
      (housesEx : ℚ → ℚ → ℚ → String → Except String (List ℚ × List ℚ))
      (date time : String) (lat lon : ℚ) (system : String)
      (y mo d hh mi ss : Int) (cusps : List ℚ) (asc mh ar vtx : ℚ)
      (rest : List ℚ),
      parseDate date = some (y, mo, d) →
      parseTime time = some (hh, mi, ss) →
      cusps.length = 12 →
      (housesEx (julday y mo d (decimalHour hh mi ss)) lat lon system
          = .ok (cusps, asc :: mh :: ar :: vtx :: rest) →
        get_houses julday housesEx date time lat lon system
          = .ok ⟨cusps, asc, mh, ar, vtx⟩)
      ∧ (∀ e, housesEx (julday y mo d (decimalHour hh mi ss)) lat lon system
          = .error e →
        get_houses julday housesEx date time lat lon system
          = .httpError 500 ("Error calculating houses: " ++ e)) := by
  intro julday housesEx date time lat lon system y mo d hh mi ss cusps asc
    mh ar vtx rest hd ht hlen
  constructor
  · intro hok
    simp [get_houses, hd, ht, hok]
  · intro e herr
    simp [get_houses, hd, ht, herr]

/-- Witness for C7 with a collaborator returning 12 cusps and 4 angles. -/
theorem houses_passthrough_witness :
    get_houses (fun _ _ _ _ => 0)
        (fun _ _ _ _ => .ok ([1, 2, 3, 4, 5, 6, 7, 8, 9, 10, 11, 12],
          [101, 102, 103, 104]))
        "2025-05-10" "00:00:00" 10 20 "P"
      = .ok ⟨[1, 2, 3, 4, 5, 6, 7, 8, 9, 10, 11, 12], 101, 102, 103, 104⟩ :=
  (houses_passthrough _ _ "2025-05-10" "00:00:00" 10 20 "P" 2025 5 10 0 0 0
      [1, 2, 3, 4, 5, 6, 7, 8, 9, 10, 11, 12] 101 102 103 104 []
      (by decide) (by decide) (by decide)).1 rfl

/-- Claim C8 (counterexample): with a collaborator whose `calc_ut` raises
for every body, `/planets` still answers success: the ten library failures
are embedded as per-body error entries inside the `.ok` response rather
than surfaced as a 5xx. -/
theorem planets_failures_inside_success :
    get_planets (fun _ _ _ _ => 0) (fun _ _ => .error "SwissEph error")
        "2025-05-10" "00:00:00"
      = .ok [("Sun", .errorEntry "SwissEph error"),
          ("Moon", .errorEntry "SwissEph error"),
          ("Mercury", .errorEntry "SwissEph error"),
          ("Venus", .errorEntry "SwissEph error"),
          ("Mars", .errorEntry "SwissEph error"),
          ("Jupiter", .errorEntry "SwissEph error"),
          ("Saturn", .errorEntry "SwissEph error"),
          ("Uranus", .errorEntry "SwissEph error"),
          ("Neptune", .errorEntry "SwissEph error"),
          ("Pluto", .errorEntry "SwissEph error")] := by
  decide

/-- Claim C8 (amended): the `/planets` loop makes exactly one `calc_ut`
call per body with no retry; a failure of one body's call is recorded
verbatim as that body's error entry inside the success response; and a
failure raised by the collaborator outside the per-body loop (here:
`swe.houses`) is surfaced as a 500 whose detail embeds the underlying
message verbatim. -/
theorem library_failure_surfacing :
    (∀ (calc_ut : ℚ → Nat → Except String (List ℚ)) (jd_ut : ℚ),
      (planetLoop calc_ut jd_ut planet_dict_planets).2
        = planet_dict_planets.map (fun p => (jd_ut, p.2)))
    ∧ (∀ (calc_ut : ℚ → Nat → Except String (List ℚ)) (jd_ut : ℚ)
        (nm : String) (pid : Nat) (e : String),
      (nm, pid) ∈ planet_dict_planets → calc_ut jd_ut pid = .error e →
      (nm, PlanetEntry.errorEntry e)
        ∈ (planetLoop calc_ut jd_ut planet_dict_planets).1)
    ∧ (∀ (julday : Int → Int → Int → ℚ → ℚ)
        (housesEx : ℚ → ℚ → ℚ → String → Except String (List ℚ × List ℚ))
        (date time : String) (lat lon : ℚ) (system : String)
        (y mo d hh mi ss : Int) (e : String),
      parseDate date = some (y, mo, d) →
      parseTime time = some (hh, mi, ss) →
      housesEx (julday y mo d (decimalHour hh mi ss)) lat lon system
          = .error e →
      get_houses julday housesEx date time lat lon system
        = .httpError 500 ("Error calculating houses: " ++ e)) := by
  refine ⟨?_, ?_, ?_⟩
  · intro calc_ut jd_ut
    exact planetLoop_trace calc_ut jd_ut planet_dict_planets
  · intro calc_ut jd_ut nm pid e hm hc
    have h := planetLoop_mem calc_ut jd_ut planet_dict_planets nm pid hm
    rwa [hc] at h
  · intro julday housesEx date time lat lon system y mo d hh mi ss e hd ht
      herr
    simp [get_houses, hd, ht, herr]

/-- Witness for the amended C8: one call per body and verbatim surfacing,
at concrete collaborators. -/
theorem library_failure_surfacing_witness :
    (planetLoop (fun _ _ => .error "boom") 7 planet_dict_planets).2
        = planet_dict_planets.map (fun p => ((7 : ℚ), p.2))
      ∧ ("Sun", PlanetEntry.errorEntry "boom")
        ∈ (planetLoop (fun _ _ => .error "boom") 7 planet_dict_planets).1
      ∧ get_houses (fun _ _ _ _ => 0) (fun _ _ _ _ => .error "invalid house system")
          "2025-05-10" "00:00:00" 0 0 "Z"
        = .httpError 500 ("Error calculating houses: " ++ "invalid house system") :=
  ⟨library_failure_surfacing.1 _ 7,
   library_failure_surfacing.2.1 _ 7 "Sun" SE_SUN "boom" (by decide) rfl,
   library_failure_surfacing.2.2 _ _ "2025-05-10" "00:00:00" 0 0 "Z"
     2025 5 10 0 0 0 "invalid house system" (by decide) (by decide) rfl⟩

/-- Claim C9: for every well-typed request body, `/retrograde_motion`
raises `AttributeError` on `request.planet_name` (line 209) before any
ephemeris call — its `swe.calc` trace is empty — and `/sidereal_time`
raises `AttributeError` on `request.jd_ut` (line 239); neither handler can
ever return its declared response model. -/
theorem post_handlers_attribute_error :
    (∀ (calcEx : ℚ → Nat → Except String (List ℚ))
       (request : RetrogradeMotionRequest),
      get_retrograde_motion calcEx request
        = (.raised (.attributeError "planet_name"), []))
    ∧ (∀ (sidtime : ℚ → ℚ) (request : SiderealTimeRequest),
      get_sidereal_time sidtime request
        = .raised (.attributeError "jd_ut")) :=
  ⟨fun _ _ => rfl, fun _ _ => rfl⟩

/-- Claim C10: when parsing and the Julian-Day conversion succeed, the
`/planets` response is a success whose keys are exactly the ten planet
names in order, and each body's entry is determined by that body's own
`calc_ut` outcome alone (six position fields or a single error entry), so
one body's failure neither removes other bodies nor aborts the request. -/
theorem planets_response_shape :
    ∀ (julday : Int → Int → Int → ℚ → ℚ)
      (calc_ut : ℚ → Nat → Except String (List ℚ))
      (date time : String) (y mo d hh mi ss : Int),
      parseDate date = some (y, mo, d) →
      parseTime time = some (hh, mi, ss) →
      get_planets julday calc_ut date time
          = .ok ((planetLoop calc_ut (julday y mo d (decimalHour hh mi ss))
            planet_dict_planets).1)
        ∧ ((planetLoop calc_ut (julday y mo d (decimalHour hh mi ss))
            planet_dict_planets).1.map Prod.fst
          = ["Sun", "Moon", "Mercury", "Venus", "Mars", "Jupiter",
             "Saturn", "Uranus", "Neptune", "Pluto"])
        ∧ (∀ (nm : String) (pid : Nat), (nm, pid) ∈ planet_dict_planets →
          (nm, entryOf (calc_ut (julday y mo d (decimalHour hh mi ss)) pid))
            ∈ (planetLoop calc_ut (julday y mo d (decimalHour hh mi ss))
              planet_dict_planets).1) := by
  intro julday calc_ut date time y mo d hh mi ss hd ht
  refine ⟨?_, ?_, ?_⟩
  · simp [get_planets, hd, ht]
  · rw [planetLoop_keys]
    rfl
  · intro nm pid hm
    exact planetLoop_mem _ _ _ _ _ hm

/-- Witness for C10 with a collaborator failing exactly on Mercury. -/
theorem planets_response_shape_witness :
    get_planets (fun _ _ _ _ => 0)
        (fun _ pid => if pid = 2 then .error "no ephemeris"
          else .ok [1, 2, 3, 4, 5, 6]) "2025-05-10" "00:00:00"
        = .ok ((planetLoop
            (fun _ pid => if pid = 2 then .error "no ephemeris"
              else .ok [1, 2, 3, 4, 5, 6]) 0 planet_dict_planets).1)
      ∧ ((planetLoop
          (fun _ pid => if pid = 2 then .error "no ephemeris"
            else .ok [1, 2, 3, 4, 5, 6]) 0 planet_dict_planets).1.map
            Prod.fst
        = ["Sun", "Moon", "Mercury", "Venus", "Mars", "Jupiter",
           "Saturn", "Uranus", "Neptune", "Pluto"])
      ∧ ("Mercury", entryOf ((fun (_ : ℚ) pid =>
            if pid = 2 then Except.error "no ephemeris"
            else Except.ok [1, 2, 3, 4, 5, 6]) 0 2))
        ∈ (planetLoop
            (fun _ pid => if pid = 2 then .error "no ephemeris"
              else .ok [1, 2, 3, 4, 5, 6]) 0 planet_dict_planets).1 := by
  have h := planets_response_shape (fun _ _ _ _ => 0)
    (fun _ pid => if pid = 2 then .error "no ephemeris"
      else .ok [1, 2, 3, 4, 5, 6]) "2025-05-10" "00:00:00" 2025 5 10 0 0 0
    (by decide) (by decide)
  exact ⟨h.1, h.2.1, h.2.2 "Mercury" 2 (by decide)⟩

end Swisseph
